import Mathlib

/-
Verification of the warehouse rolling-inventory forecast and
capacity-optimization engine.

The development shallowly embeds the Python modules
`warehouse_product_rolling_forecast.py`,
`api_warehouse_capacity_optimization.py`,
`api_warehouse_scenario_simulator.py` and the shipping-cost helper of
`api_inventory_allocation_view.py`.  Real numbers of the source are
modelled as exact rationals; the Python builtin `round` (banker
rounding: nearest, ties to even) is modelled by `pyRound` below.  The
Python stable `sorted` is modelled by a stable insertion sort, which
agrees with every stable sorting algorithm for the same comparison.
-/

namespace WarehouseOpt

/-- Embedding of the Python builtin `round(x)` on exact rationals:
nearest integer, ties to even. -/
def pyRound (x : ℚ) : ℤ :=
  if x - (⌊x⌋ : ℚ) < 1/2 then ⌊x⌋
  else if 1/2 < x - (⌊x⌋ : ℚ) then ⌊x⌋ + 1
  else if ⌊x⌋ % 2 = 0 then ⌊x⌋ else ⌊x⌋ + 1

/-- Embedding of the Python `round(x, 1)`. -/
def pyRound1 (x : ℚ) : ℚ := (pyRound (x * 10) : ℚ) / 10

/-- Embedding of the Python `round(x, 2)`. -/
def pyRound2 (x : ℚ) : ℚ := (pyRound (x * 100) : ℚ) / 100

/-- Stable-insertion step used to model the Python stable `sorted`. -/
def sortInsert (le : α → α → Bool) (a : α) : List α → List α
  | [] => [a]
  | b :: l => if le a b then a :: b :: l else b :: sortInsert le a l

/-- Stable insertion sort; extensionally equal to the Python stable
`sorted` for the same (total-preorder) comparison. -/
def stableSort (le : α → α → Bool) : List α → List α
  | [] => []
  | a :: l => sortInsert le a (stableSort le l)

/-! Rolling inventory simulator, from `generate_rolling_forecast` and
`_generate_network_summary` in `warehouse_product_rolling_forecast.py`.
The per-series monthly forecast values (the model branch already clamped
with `max(0, yhat)`, or the historical-mean fallback) are inputs `fcIn`,
`fcOut`; periods are indexed 0, 1, ... in chronological order. -/

/-- Inputs of one call of `generate_rolling_forecast`: warehouse list,
product list, capacities, starting inventory, per-series monthly flow
forecasts and the horizon. -/
structure SimInput where
  whs : List String
  prods : List String
  cap : String → ℚ
  startInv : String → String → ℚ
  fcIn : String → String → ℕ → ℚ
  fcOut : String → String → ℕ → ℚ
  horizon : ℕ

/-- Exact (un-rounded) rolling inventory position of `current_inventory`
before period `t`: the chained fold
`after_position = max(0, before_position + net_flow)`. -/
def posExact (I : SimInput) (w p : String) : ℕ → ℚ
  | 0 => I.startInv w p
  | t + 1 => max 0 (posExact I w p t + I.fcIn w p t - I.fcOut w p t)

/-- One recorded entry of `rolling_inventory[month_key]`; every numeric
field is stored through the Python `round`. -/
structure LedgerEntry where
  starting_position : ℤ
  inflow : ℤ
  outflow : ℤ
  net_flow : ℤ
  ending_position : ℤ
  capacity_utilization : ℚ
deriving DecidableEq

/-- The entry recorded for `(w, p)` at period `t`. -/
def rollingEntry (I : SimInput) (w p : String) (t : ℕ) : LedgerEntry :=
  { starting_position := pyRound (posExact I w p t)
    inflow := pyRound (I.fcIn w p t)
    outflow := pyRound (I.fcOut w p t)
    net_flow := pyRound (I.fcIn w p t - I.fcOut w p t)
    ending_position := pyRound (posExact I w p (t + 1))
    capacity_utilization :=
      pyRound1 (posExact I w p (t + 1) / I.cap w * 100) }

/-- The full recorded ledger of `(w, p)` over the horizon. -/
def rollingLedger (I : SimInput) (w p : String) : List LedgerEntry :=
  (List.range I.horizon).map (fun t => rollingEntry I w p t)

/-- The warehouse-level total `warehouse_total_after` at period `t`. -/
def warehouseTotalAfter (I : SimInput) (w : String) (t : ℕ) : ℚ :=
  (I.prods.map (fun p => posExact I w p (t + 1))).sum

/-- The warehouse-level utilization checked for alerts (exact; the
recorded copy is rounded afterwards). -/
def warehouseUtilization (I : SimInput) (w : String) (t : ℕ) : ℚ :=
  warehouseTotalAfter I w t / I.cap w * 100

/-- One alert appended to `results.alerts`. -/
structure CapacityAlert where
  warehouse : String
  date : ℕ
  type : String
  severity : String
deriving DecidableEq

/-- Alerts contributed by warehouse `w` at period `t`. -/
def periodAlerts (I : SimInput) (w : String) (t : ℕ) : List CapacityAlert :=
  if 90 < warehouseUtilization I w t then
    [{ warehouse := w, date := t, type := "OVER_CAPACITY",
       severity := if 95 < warehouseUtilization I w t then "HIGH" else "MEDIUM" }]
  else []

/-- The `results.alerts` list: periods in the outer loop, warehouses in
the inner loop. -/
def forecastAlerts (I : SimInput) : List CapacityAlert :=
  (List.range I.horizon).flatMap (fun t =>
    I.whs.flatMap (fun w => periodAlerts I w t))

/-- Fields of `_generate_network_summary` used by the claims. -/
structure NetworkSummary where
  network_projected_inflow : ℤ
  network_projected_outflow : ℤ
  network_net_position : ℤ
deriving DecidableEq

/-- The network summary sums the already-rounded stored monthly forecast
values over warehouses, products and months. -/
def generateNetworkSummary (I : SimInput) : NetworkSummary :=
  let totalIn := (I.whs.map (fun w => (I.prods.map (fun p =>
    ((List.range I.horizon).map (fun t => pyRound (I.fcIn w p t))).sum)).sum)).sum
  let totalOut := (I.whs.map (fun w => (I.prods.map (fun p =>
    ((List.range I.horizon).map (fun t => pyRound (I.fcOut w p t))).sum)).sum)).sum
  { network_projected_inflow := pyRound (totalIn : ℚ)
    network_projected_outflow := pyRound (totalOut : ℚ)
    network_net_position := pyRound ((totalIn : ℚ) - (totalOut : ℚ)) }

/-! Capacity analyzer and transfer optimizer, from
`api_warehouse_capacity_optimization.py`. -/

/-- Result of `_assess_capacity_risk`. -/
structure RiskAssessment where
  level : String
  score : ℕ
  factors : List String
deriving DecidableEq

/-- Embedding of `_assess_capacity_risk`: sequential additive scoring,
then the score-to-level thresholds. -/
def assessCapacityRisk (avgUtil maxUtil trendSlope : ℚ) : RiskAssessment :=
  let s1 : ℕ := if 80 < avgUtil then 3 else if 60 < avgUtil then 1 else 0
  let f1 : List String :=
    if 80 < avgUtil then ["High average utilization"]
    else if 60 < avgUtil then ["Moderate utilization"] else []
  let s2 : ℕ := s1 + (if 95 < maxUtil then 3 else if 85 < maxUtil then 2 else 0)
  let f2 : List String := f1 ++
    (if 95 < maxUtil then ["Near capacity peaks"]
     else if 85 < maxUtil then ["High peak utilization"] else [])
  let s3 : ℕ := s2 + (if 1 < trendSlope then 2 else if 1/2 < trendSlope then 1 else 0)
  let f3 : List String := f2 ++
    (if 1 < trendSlope then ["Rapidly increasing trend"]
     else if 1/2 < trendSlope then ["Increasing trend"] else [])
  { level :=
      if 5 ≤ s3 then "HIGH"
      else if 3 ≤ s3 then "MEDIUM"
      else if 1 ≤ s3 then "LOW"
      else "MINIMAL"
    score := s3
    factors := if f3 = [] then ["Low risk profile"] else f3 }

/-- The fields of one `capacity_analysis[warehouse]` record the transfer
optimizer reads. -/
structure CapEntry where
  final_utilization : ℚ
  current_inventory : ℚ
  max_capacity : ℚ
  risk_score : ℕ
deriving DecidableEq

/-- The business rules `_calculate_optimal_transfer` reads from the
configuration (`optimal_range[1]`, `max_transfer_percentage`,
`minimum_transfer_size`). -/
structure BusinessRules where
  optimal_range_hi : ℚ
  max_transfer_percentage : ℚ
  minimum_transfer_size : ℚ
deriving DecidableEq

/-- `target_util = optimal_range[1] * 100`. -/
def targetUtil (rules : BusinessRules) : ℚ := rules.optimal_range_hi * 100

/-- `source_excess = (source_util - target_util) / 100 * source_capacity`. -/
def sourceExcess (rules : BusinessRules) (src : CapEntry) : ℚ :=
  (src.final_utilization - targetUtil rules) / 100 * src.max_capacity

/-- `dest_deficit = (target_util - dest_util) / 100 * dest_capacity`. -/
def destDeficit (rules : BusinessRules) (dst : CapEntry) : ℚ :=
  (targetUtil rules - dst.final_utilization) / 100 * dst.max_capacity

/-- `max_transferable = min(source_inventory * max_transfer_pct,
dest_capacity - dest_inventory, source_excess, dest_deficit)`. -/
def maxTransferable (rules : BusinessRules) (src dst : CapEntry) : ℚ :=
  min (min (src.current_inventory * rules.max_transfer_percentage)
           (dst.max_capacity - dst.current_inventory))
      (min (sourceExcess rules src) (destDeficit rules dst))

/-- `recommended_transfer = max(0, min(max_transferable,
source_excess * 0.7))`, zeroed when below `minimum_transfer_size`. -/
def recommendedTransfer (rules : BusinessRules) (src dst : CapEntry) : ℚ :=
  let r := max 0 (min (maxTransferable rules src dst) (sourceExcess rules src * (7/10)))
  if r < rules.minimum_transfer_size then 0 else r

/-- `new_source_util = (source_inventory - recommended) / source_capacity * 100`. -/
def newSourceUtil (rules : BusinessRules) (src dst : CapEntry) : ℚ :=
  (src.current_inventory - recommendedTransfer rules src dst) / src.max_capacity * 100

/-- `new_dest_util = (dest_inventory + recommended) / dest_capacity * 100`. -/
def newDestUtil (rules : BusinessRules) (src dst : CapEntry) : ℚ :=
  (dst.current_inventory + recommendedTransfer rules src dst) / dst.max_capacity * 100

/-- The static symmetric distance table of `_get_distance_factor` in the
capacity optimizer. -/
def distanceFactors : List ((String × String) × ℚ) :=
  [(("Atlanta", "Nashville"), 1), (("Atlanta", "Chicago"), 3/2),
   (("Atlanta", "NY"), 2), (("Atlanta", "LA"), 3),
   (("Nashville", "Chicago"), 6/5), (("Nashville", "NY"), 9/5),
   (("Nashville", "LA"), 5/2), (("Chicago", "NY"), 3/2),
   (("Chicago", "LA"), 11/5), (("NY", "LA"), 7/2)]

/-- `_get_distance_factor`: symmetric lookup, default 2.0. -/
def getDistanceFactor (s d : String) : ℚ :=
  match distanceFactors.lookup (s, d) with
  | some v => v
  | none =>
      match distanceFactors.lookup (d, s) with
      | some v => v
      | none => 2

/-- The tiered volume discount of `_estimate_shipping_cost` in
`api_inventory_allocation_view.py` (0.85 above 10000 units, 0.90 above
5000, else 1). -/
def volumeDiscount (quantity : ℚ) : ℚ :=
  if 10000 < quantity then 17/20
  else if 5000 < quantity then 9/10
  else 1

/-- One transfer recommendation as returned by
`_calculate_optimal_transfer` (the fields the claims mention). -/
structure TransferRec where
  source_warehouse : String
  destination_warehouse : String
  recommended_transfer : ℤ
  proj_source_utilization : ℚ
  proj_dest_utilization : ℚ
  utilization_improvement : ℚ
  estimated_transfer_cost : ℚ
  estimated_storage_savings : ℚ
  net_benefit : ℚ
  priority : String
  urgency : String
deriving DecidableEq

/-- Embedding of `_calculate_optimal_transfer` on one
(source, destination) pair of named analysis entries. -/
def calculateOptimalTransfer (rules : BusinessRules)
    (s d : String × CapEntry) : TransferRec :=
  let q := recommendedTransfer rules s.2 d.2
  let nsu := newSourceUtil rules s.2 d.2
  let ndu := newDestUtil rules s.2 d.2
  let improvement := (s.2.final_utilization - nsu) + (ndu - d.2.final_utilization)
  let dist := getDistanceFactor s.1 d.1
  let cost := q * (1/10) * dist
  let savings := (s.2.final_utilization - nsu) / 100 * s.2.max_capacity * (1/20)
  { source_warehouse := s.1
    destination_warehouse := d.1
    recommended_transfer := pyRound q
    proj_source_utilization := pyRound1 nsu
    proj_dest_utilization := pyRound1 ndu
    utilization_improvement := pyRound1 improvement
    estimated_transfer_cost := pyRound2 cost
    estimated_storage_savings := pyRound2 savings
    net_benefit := pyRound2 (savings - cost)
    priority :=
      if 10 < improvement then "HIGH"
      else if 5 < improvement then "MEDIUM"
      else "LOW"
    urgency := if 90 < s.2.final_utilization then "IMMEDIATE" else "PLANNED" }

/-- Embedding of `identify_transfer_opportunities`: rank by final
utilization descending (stable), sources are the top three above 70,
destinations the bottom three below 50, skip equal names, keep records
whose rounded recommended transfer is positive, and sort the survivors
by (rounded) utilization improvement descending. -/
def identifyTransferOpportunities (rules : BusinessRules)
    (analysis : List (String × CapEntry)) : List TransferRec :=
  let sorted := stableSort
    (fun a b => decide (b.2.final_utilization ≤ a.2.final_utilization)) analysis
  let highUtil := (sorted.take 3).filter (fun a => decide (70 < a.2.final_utilization))
  let lowUtil := (sorted.drop (sorted.length - 3)).filter
    (fun a => decide (a.2.final_utilization < 50))
  let opps := highUtil.flatMap (fun s =>
    lowUtil.filterMap (fun d =>
      if s.1 = d.1 then none
      else
        let tr := calculateOptimalTransfer rules s d
        if 0 < tr.recommended_transfer then some tr else none))
  stableSort (fun a b => decide (b.utilization_improvement ≤ a.utilization_improvement)) opps

/-! Scenario simulator, from `api_warehouse_scenario_simulator.py` and
`simulate_high_demand_scenario` in the capacity optimizer. -/

/-- The impact summary built by `calculate_scenario_impact`. -/
structure ImpactSummary where
  transfer_costs : ℚ
  storage_savings : ℚ
  net_impact : ℚ
  utilization_changes : List (String × ℚ × ℚ × ℚ)
  total_utilization_improvement : ℚ
  transfer_opportunities_created : ℕ
deriving DecidableEq

/-- Embedding of `calculate_scenario_impact`: the cost figures sum over
the scenario transfer list it receives; the utilization loop walks the
baseline warehouses, records (baseline, scenario, rounded change) and
accumulates the absolute changes. -/
def calculateScenarioImpact (baseUtil : List (String × ℚ))
    (scenarioUtil : String → ℚ) (transfers : List TransferRec) : ImpactSummary :=
  let costs := (transfers.map (fun t => t.estimated_transfer_cost)).sum
  let savings := (transfers.map (fun t => t.estimated_storage_savings)).sum
  let net := (transfers.map (fun t => t.net_benefit)).sum
  let loop := baseUtil.foldl (fun acc wb =>
      (acc.1 ++ [(wb.1, wb.2, scenarioUtil wb.1,
        pyRound1 (scenarioUtil wb.1 - wb.2))],
       acc.2 + |scenarioUtil wb.1 - wb.2|))
    (([] : List (String × ℚ × ℚ × ℚ)), (0 : ℚ))
  { transfer_costs := costs
    storage_savings := savings
    net_impact := net
    utilization_changes := loop.1
    total_utilization_improvement := loop.2
    transfer_opportunities_created := transfers.length }

/-! Object-graph model of `simulate_high_demand_scenario`.  In the
source each `capacity_analysis[warehouse]` value holds nested
dictionaries (`warehouse_info`, `utilization_metrics`,
`trend_analysis`); `scenario_data = data.copy()` is a SHALLOW copy, so
the nested dictionaries stay shared between baseline and scenario.  The
heap below makes that sharing explicit: entries hold addresses of the
nested records, `data.copy()` copies the addresses, and in-place
assignments write through the heap. -/

/-- The `warehouse_info` nested dictionary. -/
structure WhInfoV where
  max_capacity : ℚ
  current_inventory : ℚ
  available_capacity : ℚ
  available_capacity_pct : ℚ
deriving DecidableEq

/-- The `utilization_metrics` nested dictionary (the field the scenario
writes). -/
structure UtilMetricsV where
  final_utilization : ℚ
deriving DecidableEq

/-- The `trend_analysis` nested dictionary (the field the scenario
writes). -/
structure TrendV where
  trend_direction : String
deriving DecidableEq

/-- One `capacity_analysis[warehouse]` value: addresses of the three
nested dictionaries plus the `risk_assessment` value (which the
scenario rebinds rather than mutates). -/
structure EntryRef where
  whInfoAddr : ℕ
  utilAddr : ℕ
  trendAddr : ℕ
  risk : RiskAssessment
deriving DecidableEq

/-- The store of nested dictionaries. -/
structure Heap where
  whInfos : List WhInfoV
  utilMs : List UtilMetricsV
  trends : List TrendV
deriving DecidableEq

def getWhInfo (h : Heap) (a : ℕ) : WhInfoV := h.whInfos.getD a ⟨0, 0, 0, 0⟩

def getUtilM (h : Heap) (a : ℕ) : UtilMetricsV := h.utilMs.getD a ⟨0⟩

def getTrend (h : Heap) (a : ℕ) : TrendV := h.trends.getD a ⟨""⟩

def setWhInfo (h : Heap) (a : ℕ) (v : WhInfoV) : Heap :=
  { h with whInfos := h.whInfos.set a v }

def setUtilM (h : Heap) (a : ℕ) (v : UtilMetricsV) : Heap :=
  { h with utilMs := h.utilMs.set a v }

def setTrend (h : Heap) (a : ℕ) (v : TrendV) : Heap :=
  { h with trends := h.trends.set a v }

/-- The fully dereferenced value of one analysis entry, for comparing a
baseline before and after a scenario run. -/
structure EntryView where
  whInfo : WhInfoV
  utilM : UtilMetricsV
  trend : TrendV
  risk : RiskAssessment
deriving DecidableEq

def viewEntry (h : Heap) (e : EntryRef) : EntryView :=
  ⟨getWhInfo h e.whInfoAddr, getUtilM h e.utilAddr, getTrend h e.trendAddr, e.risk⟩

/-- One iteration of the loop of `simulate_high_demand_scenario` for a
named entry: `scenario_data = data.copy()` (same addresses), the
per-warehouse overload writes (which go through the shared nested
dictionaries), the `risk_assessment` rebinding (local to the copy), and
the unconditional recomputation of the available-capacity fields. -/
def simulateStep (h : Heap) (we : String × EntryRef) : Heap × (String × EntryRef) :=
  let w := we.1
  let e := we.2
  let h1 :=
    if w = "Atlanta" then
      let wi := getWhInfo h e.whInfoAddr
      let ha := setWhInfo h e.whInfoAddr
        { wi with current_inventory := (pyRound (wi.max_capacity * (17/20)) : ℚ) }
      let hb := setUtilM ha e.utilAddr ⟨85⟩
      setTrend hb e.trendAddr ⟨"Increasing"⟩
    else if w = "Nashville" then
      let wi := getWhInfo h e.whInfoAddr
      let ha := setWhInfo h e.whInfoAddr
        { wi with current_inventory := (pyRound (wi.max_capacity * (9/10)) : ℚ) }
      let hb := setUtilM ha e.utilAddr ⟨90⟩
      setTrend hb e.trendAddr ⟨"Increasing"⟩
    else if w = "Chicago" then
      let wi := getWhInfo h e.whInfoAddr
      let ha := setWhInfo h e.whInfoAddr
        { wi with current_inventory := (pyRound (wi.max_capacity * (3/10)) : ℚ) }
      setUtilM ha e.utilAddr ⟨30⟩
    else if w = "LA" then
      let wi := getWhInfo h e.whInfoAddr
      let ha := setWhInfo h e.whInfoAddr
        { wi with current_inventory := (pyRound (wi.max_capacity * (1/4)) : ℚ) }
      setUtilM ha e.utilAddr ⟨25⟩
    else h
  let risk1 :=
    if w = "Atlanta" then assessCapacityRisk 85 87 (6/5)
    else if w = "Nashville" then assessCapacityRisk 90 92 (3/2)
    else e.risk
  let wi := getWhInfo h1 e.whInfoAddr
  let h2 := setWhInfo h1 e.whInfoAddr
    { wi with available_capacity := wi.max_capacity - wi.current_inventory }
  let wi2 := getWhInfo h2 e.whInfoAddr
  let h3 := setWhInfo h2 e.whInfoAddr
    { wi2 with available_capacity_pct :=
        wi2.available_capacity / wi2.max_capacity * 100 }
  (h3, (w, { e with risk := risk1 }))

/-- Embedding of `simulate_high_demand_scenario`: fold the step over
the baseline entries, building the scenario dictionary. -/
def simulateHighDemandScenario (h : Heap) (baseline : List (String × EntryRef)) :
    Heap × List (String × EntryRef) :=
  baseline.foldl (fun acc we =>
    let step := simulateStep acc.1 we
    (step.1, acc.2 ++ [step.2])) (h, [])

/-! Concrete inputs used by the counterexamples and witnesses. -/

/-- Business rules with the documented defaults: optimal-range upper
bound 0.80, max transfer percentage 0.50, minimum transfer size 10000. -/
def rulesEx : BusinessRules := ⟨4/5, 1/2, 10000⟩

/-- A two-warehouse analysis whose emitted transfer is large enough to
cross the 10000-unit volume-discount tier. -/
def analysisC6 : List (String × CapEntry) :=
  [("Atlanta", ⟨100, 100000, 200000, 0⟩), ("Nashville", ⟨20, 40000, 200000, 0⟩)]

/-- A two-warehouse analysis whose recorded final utilization disagrees
with inventory divided by capacity. -/
def analysisC9 : List (String × CapEntry) :=
  [("Atlanta", ⟨90, 30000, 200000, 0⟩), ("Nashville", ⟨20, 20000, 200000, 0⟩)]

/-- A two-warehouse analysis whose recorded final utilization equals
inventory divided by capacity times 100 for both warehouses. -/
def analysisCons : List (String × CapEntry) :=
  [("Atlanta", ⟨100, 200000, 200000, 0⟩), ("Nashville", ⟨20, 40000, 200000, 0⟩)]

/-- The transfer the optimizer emits on `analysisC6`. -/
def trC6 : TransferRec :=
  calculateOptimalTransfer rulesEx
    ("Atlanta", ⟨100, 100000, 200000, 0⟩) ("Nashville", ⟨20, 40000, 200000, 0⟩)

/-- The transfer the optimizer emits on `analysisC9`. -/
def trC9 : TransferRec :=
  calculateOptimalTransfer rulesEx
    ("Atlanta", ⟨90, 30000, 200000, 0⟩) ("Nashville", ⟨20, 20000, 200000, 0⟩)

/-- The transfer the optimizer emits on `analysisCons`. -/
def trCons : TransferRec :=
  calculateOptimalTransfer rulesEx
    ("Atlanta", ⟨100, 200000, 200000, 0⟩) ("Nashville", ⟨20, 40000, 200000, 0⟩)

/-- A one-warehouse, one-product simulation input with fractional
forecast flows in period 0. -/
def simFrac : SimInput :=
  { whs := ["A"], prods := ["P"], cap := fun _ => 100
    startInv := fun _ _ => 0
    fcIn := fun _ _ _ => 7/5
    fcOut := fun _ _ _ => 3/5
    horizon := 2 }

/-- A one-warehouse, one-product simulation input sitting at 96 percent
utilization in period 0. -/
def sim96 : SimInput :=
  { whs := ["A"], prods := ["P"], cap := fun _ => 100
    startInv := fun _ _ => 96
    fcIn := fun _ _ _ => 0
    fcOut := fun _ _ _ => 0
    horizon := 1 }

/-- A one-entry baseline heap for the scenario-mutation evidence. -/
def heapEx : Heap :=
  { whInfos := [⟨100000, 50000, 50000, 50⟩]
    utilMs := [⟨50⟩]
    trends := [⟨"Stable"⟩] }

/-- The baseline entry for Atlanta: its nested dictionaries live at
address 0. -/
def entryExRef : EntryRef := ⟨0, 0, 0, assessCapacityRisk 50 50 0⟩

/-- The matching baseline dictionary: one Atlanta entry. -/
def baselineEx : List (String × EntryRef) := [("Atlanta", entryExRef)]

/-! Facts about the rounding embedding. -/

theorem pyRound_intCast (z : ℤ) : pyRound (z : ℚ) = z := by
  unfold pyRound
  simp

theorem pyRound_nonneg {x : ℚ} (hx : 0 ≤ x) : 0 ≤ pyRound x := by
  unfold pyRound
  have hf : (0 : ℤ) ≤ ⌊x⌋ := Int.floor_nonneg.mpr hx
  split_ifs <;> omega

theorem pyRound_nonpos {x : ℚ} (hx : x ≤ 0) : pyRound x ≤ 0 := by
  unfold pyRound
  have hf : ⌊x⌋ ≤ 0 := by
    have := Int.floor_le_floor (α := ℚ) hx
    simpa using this
  have hf' := Int.floor_le x
  split_ifs with h1 h2 h3
  · exact hf
  · -- here 1/2 < x - floor x, so the floor is strictly negative
    have hneg : (⌊x⌋ : ℚ) < 0 := by linarith
    have : ⌊x⌋ < 0 := by exact_mod_cast hneg
    omega
  · exact hf
  · have hhalf : x - (⌊x⌋ : ℚ) = 1/2 := le_antisymm (le_of_not_lt h2) (le_of_not_lt h1)
    have hneg : (⌊x⌋ : ℚ) < 0 := by linarith
    have : ⌊x⌋ < 0 := by exact_mod_cast hneg
    omega

theorem pyRound_mono {x y : ℚ} (hxy : x ≤ y) : pyRound x ≤ pyRound y := by
  rcases lt_or_le (⌊x⌋) (⌊y⌋) with hf | hf
  · -- different floors: pyRound x ≤ floor x + 1 ≤ floor y ≤ pyRound y
    have h1 : pyRound x ≤ ⌊x⌋ + 1 := by
      unfold pyRound; split_ifs <;> omega
    have h2 : ⌊y⌋ ≤ pyRound y := by
      unfold pyRound; split_ifs <;> omega
    omega
  · have hfe' : ⌊x⌋ ≤ ⌊y⌋ := Int.floor_le_floor hxy
    have heq : ⌊x⌋ = ⌊y⌋ := le_antisymm hfe' hf
    have hr : x - (⌊x⌋ : ℚ) ≤ y - (⌊y⌋ : ℚ) := by rw [← heq]; linarith
    unfold pyRound
    rw [heq] at *
    split_ifs with a1 a2 a3 b1 b2 b3 <;> first | omega | linarith

theorem pos_of_pyRound_pos {x : ℚ} (hx : 0 < pyRound x) : 0 < x := by
  by_contra h
  have := pyRound_nonpos (le_of_not_lt h)
  omega

theorem pyRound_intSub (a b : ℤ) : pyRound ((a : ℚ) - (b : ℚ)) = a - b := by
  rw [← Int.cast_sub, pyRound_intCast]

/-! Facts about the stable sort embedding. -/

theorem mem_sortInsert {le : α → α → Bool} {a x : α} {l : List α} :
    x ∈ sortInsert le a l ↔ x = a ∨ x ∈ l := by
  induction l with
  | nil => simp [sortInsert]
  | cons b l ih =>
      unfold sortInsert
      split_ifs
      · simp [List.mem_cons]
      · simp only [List.mem_cons, ih]
        tauto

theorem mem_stableSort {le : α → α → Bool} {x : α} {l : List α} :
    x ∈ stableSort le l ↔ x ∈ l := by
  induction l with
  | nil => simp [stableSort]
  | cons b l ih => simp [stableSort, mem_sortInsert, ih]

/-! Generic list facts used below. -/

theorem flatMap_eq_nil_of {l : List α} {g : α → List β}
    (h : ∀ x ∈ l, g x = []) : l.flatMap g = [] := by
  induction l with
  | nil => rfl
  | cons b l ih =>
      simp only [List.flatMap_cons, h b (by simp), List.nil_append]
      exact ih (fun x hx => h x (by simp [hx]))

theorem flatMap_eq_single {l : List α} {g : α → List β} {a : α}
    (hnd : l.Nodup) (ha : a ∈ l) (h : ∀ x ∈ l, x ≠ a → g x = []) :
    l.flatMap g = g a := by
  induction l with
  | nil => cases ha
  | cons b l ih =>
      rcases List.mem_cons.mp ha with hb | hl
      · subst hb
        have hnil : l.flatMap g = [] := by
          refine flatMap_eq_nil_of (fun x hx => ?_)
          have hxa : x ≠ a := by
            intro hxeq
            exact (List.nodup_cons.mp hnd).1 (hxeq ▸ hx)
          exact h x (by simp [hx]) hxa
        simp [List.flatMap_cons, hnil]
      · have hba : b ≠ a := by
          intro hbeq
          exact (List.nodup_cons.mp hnd).1 (hbeq ▸ hl)
        have hgb : g b = [] := h b (by simp) hba
        simp only [List.flatMap_cons, hgb, List.nil_append]
        exact ih (List.nodup_cons.mp hnd).2 hl
          (fun x hx => h x (by simp [hx]))

theorem filter_flatMap_comm (l : List α) (g : α → List β) (p : β → Bool) :
    (l.flatMap g).filter p = l.flatMap (fun x => (g x).filter p) := by
  induction l with
  | nil => rfl
  | cons b l ih => simp [List.flatMap_cons, List.filter_append, ih]

theorem eq_of_mem_of_fst_eq {l : List (α × β)}
    (hnd : (l.map Prod.fst).Nodup) {x y : α × β}
    (hx : x ∈ l) (hy : y ∈ l) (h : x.1 = y.1) : x = y := by
  induction l with
  | nil => cases hx
  | cons b l ih =>
      simp only [List.map_cons, List.nodup_cons] at hnd
      rcases List.mem_cons.mp hx with hxb | hxl <;>
        rcases List.mem_cons.mp hy with hyb | hyl
      · rw [hxb, hyb]
      · exfalso
        apply hnd.1
        have hmem : y.1 ∈ l.map Prod.fst := List.mem_map_of_mem Prod.fst hyl
        rw [hxb] at h
        rw [h]
        exact hmem
      · exfalso
        apply hnd.1
        have hmem : x.1 ∈ l.map Prod.fst := List.mem_map_of_mem Prod.fst hxl
        rw [hyb] at h
        rw [← h]
        exact hmem
      · exact ih hnd.2 hxl hyl

/-! Claim theorems. -/

/-- C4: the risk score is the additive sum of the three utilization and
trend rules (+3 if mean > 80 else +1 if mean > 60; +3 if peak > 95 else
+2 if peak > 85; +2 if slope > 1.0 else +1 if slope > 0.5), and the
level is HIGH when the score is at least 5, else MEDIUM at 3, LOW at 1,
MINIMAL otherwise; being a pure function, identical inputs yield the
identical assessment. -/
theorem c4_risk_score_level (a m s : ℚ) :
    (assessCapacityRisk a m s).score =
      (if 80 < a then 3 else if 60 < a then 1 else 0) +
      (if 95 < m then 3 else if 85 < m then 2 else 0) +
      (if 1 < s then 2 else if 1/2 < s then 1 else 0) ∧
    (assessCapacityRisk a m s).level =
      (if 5 ≤ (assessCapacityRisk a m s).score then "HIGH"
       else if 3 ≤ (assessCapacityRisk a m s).score then "MEDIUM"
       else if 1 ≤ (assessCapacityRisk a m s).score then "LOW"
       else "MINIMAL") :=
  ⟨rfl, rfl⟩

/-- C10: in every network summary, the reported net position is exactly
the difference of the reported inflow and outflow totals, because the
summary sums already-rounded integer monthly forecasts. -/
theorem c10_network_net_position (I : SimInput) :
    (generateNetworkSummary I).network_net_position =
      (generateNetworkSummary I).network_projected_inflow -
      (generateNetworkSummary I).network_projected_outflow := by
  unfold generateNetworkSummary
  dsimp only
  rw [pyRound_intCast, pyRound_intCast, pyRound_intSub]

theorem rollingLedger_get (I : SimInput) (w p : String) (t : ℕ)
    (h : t < (rollingLedger I w p).length) :
    (rollingLedger I w p).get ⟨t, h⟩ = rollingEntry I w p t := by
  simp [rollingLedger]

/-- C1 (counterexample): with starting inventory 0 and period-0 flows
inflow 1.4, outflow 0.6, the recorded ledger entry has
starting_position 0, inflow 1, outflow 1 and ending_position 1, while
max(0, starting + inflow - outflow) over the recorded fields is 0, so
the recorded ending_position is not that expression of the recorded
fields. -/
theorem c1_counterexample :
    (rollingEntry simFrac "A" "P" 0).ending_position = 1 ∧
    max 0 ((rollingEntry simFrac "A" "P" 0).starting_position +
      (rollingEntry simFrac "A" "P" 0).inflow -
      (rollingEntry simFrac "A" "P" 0).outflow) = 0 ∧
    (rollingLedger simFrac "A" "P").take 1 = [rollingEntry simFrac "A" "P" 0] := by
  refine ⟨?_, ?_, ?_⟩
  · show pyRound (posExact simFrac "A" "P" 1) = 1
    norm_num [posExact, simFrac, pyRound]
  · show max 0 (pyRound (posExact simFrac "A" "P" 0) +
      pyRound (simFrac.fcIn "A" "P" 0) - pyRound (simFrac.fcOut "A" "P" 0)) = 0
    norm_num [posExact, simFrac, pyRound]
  · show (rollingLedger simFrac "A" "P").take 1 = _
    simp [rollingLedger, simFrac, List.range_succ]

/-- C1 (amended): every recorded ending_position is the Python round of
max(0, starting + inflow - outflow) taken over the exact un-rounded
chained values (the identity over the independently rounded recorded
fields can be off by the rounding, as the counterexample shows), and
consequently the recorded ending_position is never negative. -/
theorem c1_ending_position (I : SimInput) (w p : String) (t : ℕ)
    (h : t < (rollingLedger I w p).length) :
    ((rollingLedger I w p).get ⟨t, h⟩).ending_position =
      pyRound (max 0 (posExact I w p t + I.fcIn w p t - I.fcOut w p t)) ∧
    0 ≤ ((rollingLedger I w p).get ⟨t, h⟩).ending_position := by
  rw [rollingLedger_get]
  exact ⟨rfl, pyRound_nonneg (le_max_left _ _)⟩

theorem c1_ending_position_witness :
    ((rollingLedger simFrac "A" "P").get ⟨0, by decide⟩).ending_position =
      pyRound (max 0 (posExact simFrac "A" "P" 0 +
        simFrac.fcIn "A" "P" 0 - simFrac.fcOut "A" "P" 0)) ∧
    0 ≤ ((rollingLedger simFrac "A" "P").get ⟨0, by decide⟩).ending_position :=
  c1_ending_position simFrac "A" "P" 0 (by decide)

/-- C2: the ledger is chained: for consecutive periods of any generated
ledger, the starting_position recorded for period t+1 equals the
ending_position recorded for period t (both round the same exact
carried-forward position). -/
theorem c2_ledger_chaining (I : SimInput) (w p : String) (t : ℕ)
    (h1 : t < (rollingLedger I w p).length)
    (h2 : t + 1 < (rollingLedger I w p).length) :
    ((rollingLedger I w p).get ⟨t + 1, h2⟩).starting_position =
      ((rollingLedger I w p).get ⟨t, h1⟩).ending_position := by
  rw [rollingLedger_get, rollingLedger_get]
  rfl

theorem c2_ledger_chaining_witness :
    ((rollingLedger simFrac "A" "P").get ⟨1, by decide⟩).starting_position =
      ((rollingLedger simFrac "A" "P").get ⟨0, by decide⟩).ending_position :=
  c2_ledger_chaining simFrac "A" "P" 0 (by decide) (by decide)

theorem mem_periodAlerts {I : SimInput} {w' : String} {t' : ℕ} {a : CapacityAlert}
    (ha : a ∈ periodAlerts I w' t') : a.warehouse = w' ∧ a.date = t' := by
  unfold periodAlerts at ha
  by_cases hu : 90 < warehouseUtilization I w' t'
  · rw [if_pos hu, List.mem_singleton] at ha
    subst ha
    exact ⟨rfl, rfl⟩
  · rw [if_neg hu] at ha
    cases ha

theorem filter_periodAlerts_ne (I : SimInput) {w w' : String} {t t' : ℕ}
    (h : w' ≠ w ∨ t' ≠ t) :
    (periodAlerts I w' t').filter (fun a => a.warehouse == w && a.date == t) = [] := by
  rw [List.filter_eq_nil_iff]
  intro a ha
  obtain ⟨h1, h2⟩ := mem_periodAlerts ha
  simp only [Bool.and_eq_true, beq_iff_eq, not_and, h1, h2]
  rcases h with h | h <;> tauto

theorem filter_periodAlerts_self (I : SimInput) (w : String) (t : ℕ) :
    (periodAlerts I w t).filter (fun a => a.warehouse == w && a.date == t) =
      periodAlerts I w t := by
  rw [List.filter_eq_self]
  intro a ha
  obtain ⟨h1, h2⟩ := mem_periodAlerts ha
  simp [h1, h2]

/-- C7: a warehouse-period pair contributes an alert to the run's alert
list exactly when its warehouse-level utilization exceeds 90 percent;
the alert has type OVER_CAPACITY and severity HIGH exactly when the
utilization exceeds 95 percent (else MEDIUM); in particular a warehouse
at utilization 96 in a period yields exactly one alert for that
warehouse-period, of HIGH severity. -/
theorem c7_alert_generation (I : SimInput) (w : String) (t : ℕ)
    (hnd : I.whs.Nodup) (hw : w ∈ I.whs) (ht : t < I.horizon) :
    (forecastAlerts I).filter (fun a => a.warehouse == w && a.date == t) =
      (if 90 < warehouseUtilization I w t then
        [{ warehouse := w, date := t, type := "OVER_CAPACITY",
           severity := if 95 < warehouseUtilization I w t then "HIGH" else "MEDIUM" }]
       else []) ∧
    (warehouseUtilization I w t = 96 →
      (forecastAlerts I).filter (fun a => a.warehouse == w && a.date == t) =
        [{ warehouse := w, date := t, type := "OVER_CAPACITY", severity := "HIGH" }]) := by
  have hmain : (forecastAlerts I).filter
      (fun a => a.warehouse == w && a.date == t) = periodAlerts I w t := by
    unfold forecastAlerts
    rw [filter_flatMap_comm]
    have houter : (List.range I.horizon).flatMap (fun t' =>
        (I.whs.flatMap (fun w' => periodAlerts I w' t')).filter
          (fun a => a.warehouse == w && a.date == t)) =
        (I.whs.flatMap (fun w' => periodAlerts I w' t)).filter
          (fun a => a.warehouse == w && a.date == t) := by
      refine flatMap_eq_single (List.nodup_range _) (List.mem_range.mpr ht) ?_
      intro t' ht' hne
      rw [filter_flatMap_comm]
      refine flatMap_eq_nil_of (fun w' _ => ?_)
      exact filter_periodAlerts_ne I (Or.inr hne)
    rw [houter, filter_flatMap_comm]
    have hinner : I.whs.flatMap (fun w' =>
        (periodAlerts I w' t).filter (fun a => a.warehouse == w && a.date == t)) =
        (periodAlerts I w t).filter (fun a => a.warehouse == w && a.date == t) :=
      flatMap_eq_single hnd hw
        (fun w' _ hne => filter_periodAlerts_ne I (Or.inl hne))
    rw [hinner, filter_periodAlerts_self]
  refine ⟨hmain, fun h96 => ?_⟩
  rw [hmain]
  unfold periodAlerts
  rw [h96]
  norm_num

theorem c7_alert_generation_witness :
    warehouseUtilization sim96 "A" 0 = 96 ∧
    (forecastAlerts sim96).filter (fun a => a.warehouse == "A" && a.date == 0) =
      [{ warehouse := "A", date := 0, type := "OVER_CAPACITY", severity := "HIGH" }] :=
  ⟨by norm_num [warehouseUtilization, warehouseTotalAfter, posExact, sim96],
   (c7_alert_generation sim96 "A" 0 (by simp [sim96]) (by simp [sim96])
       (by norm_num [sim96])).2
     (by norm_num [warehouseUtilization, warehouseTotalAfter, posExact, sim96])⟩

/-! Facts about the transfer optimizer. -/

theorem mem_identifyTransferOpportunities {rules : BusinessRules}
    {analysis : List (String × CapEntry)} {tr : TransferRec}
    (h : tr ∈ identifyTransferOpportunities rules analysis) :
    ∃ s d, s ∈ analysis ∧ d ∈ analysis ∧ s.1 ≠ d.1 ∧
      tr = calculateOptimalTransfer rules s d ∧ 0 < tr.recommended_transfer := by
  simp only [identifyTransferOpportunities, mem_stableSort, List.mem_flatMap,
    List.mem_filterMap, List.mem_filter] at h
  obtain ⟨s, ⟨hs, _⟩, d, ⟨hd, _⟩, heq⟩ := h
  by_cases hne : s.1 = d.1
  · rw [if_pos hne] at heq
    cases heq
  · rw [if_neg hne] at heq
    by_cases hpos : 0 < (calculateOptimalTransfer rules s d).recommended_transfer
    · rw [if_pos hpos] at heq
      have heq2 : calculateOptimalTransfer rules s d = tr := Option.some.inj heq
      refine ⟨s, d, ?_, ?_, hne, heq2.symm, heq2 ▸ hpos⟩
      · exact mem_stableSort.mp (List.mem_of_mem_take hs)
      · exact mem_stableSort.mp (List.mem_of_mem_drop hd)
    · rw [if_neg hpos] at heq
      cases heq

theorem recommendedTransfer_bounds {rules : BusinessRules} {src dst : CapEntry}
    (h : 0 < pyRound (recommendedTransfer rules src dst)) :
    rules.minimum_transfer_size ≤ recommendedTransfer rules src dst ∧
    0 < recommendedTransfer rules src dst ∧
    recommendedTransfer rules src dst ≤ dst.max_capacity - dst.current_inventory ∧
    recommendedTransfer rules src dst ≤ sourceExcess rules src ∧
    recommendedTransfer rules src dst ≤ destDeficit rules dst := by
  have hqpos : 0 < recommendedTransfer rules src dst := pos_of_pyRound_pos h
  by_cases hlt : max 0 (min (maxTransferable rules src dst)
      (sourceExcess rules src * (7/10))) < rules.minimum_transfer_size
  · exfalso
    have hzero : recommendedTransfer rules src dst = 0 := by
      simp only [recommendedTransfer]
      rw [if_pos hlt]
    rw [hzero] at hqpos
    exact lt_irrefl 0 hqpos
  · have hdef : recommendedTransfer rules src dst =
        max 0 (min (maxTransferable rules src dst) (sourceExcess rules src * (7/10))) := by
      simp only [recommendedTransfer]
      rw [if_neg hlt]
    have hge : rules.minimum_transfer_size ≤ recommendedTransfer rules src dst := by
      rw [hdef]
      exact le_of_not_lt hlt
    have hm : 0 < min (maxTransferable rules src dst) (sourceExcess rules src * (7/10)) := by
      by_contra hle
      have : recommendedTransfer rules src dst = 0 := by
        rw [hdef, max_eq_left (le_of_not_lt hle)]
      rw [this] at hqpos
      exact lt_irrefl 0 hqpos
    have hqm : recommendedTransfer rules src dst =
        min (maxTransferable rules src dst) (sourceExcess rules src * (7/10)) := by
      rw [hdef, max_eq_right (le_of_lt hm)]
    have hmt : recommendedTransfer rules src dst ≤ maxTransferable rules src dst := by
      rw [hqm]
      exact min_le_left _ _
    have hb1 : maxTransferable rules src dst ≤ dst.max_capacity - dst.current_inventory :=
      le_trans (min_le_left _ _) (min_le_right _ _)
    have hb2 : maxTransferable rules src dst ≤ sourceExcess rules src :=
      le_trans (min_le_right _ _) (min_le_left _ _)
    have hb3 : maxTransferable rules src dst ≤ destDeficit rules dst :=
      le_trans (min_le_right _ _) (min_le_right _ _)
    exact ⟨hge, hqpos, le_trans hmt hb1, le_trans hmt hb2, le_trans hmt hb3⟩

theorem identifyEval_cons : identifyTransferOpportunities rulesEx analysisCons = [trCons] := by
  norm_num [identifyTransferOpportunities, analysisCons, rulesEx, stableSort, sortInsert,
    List.filter, List.filterMap, List.flatMap, trCons, calculateOptimalTransfer,
    recommendedTransfer, maxTransferable, sourceExcess, destDeficit, targetUtil,
    min_def, max_def, pyRound]

theorem identifyEval_c6 : identifyTransferOpportunities rulesEx analysisC6 = [trC6] := by
  norm_num [identifyTransferOpportunities, analysisC6, rulesEx, stableSort, sortInsert,
    List.filter, List.filterMap, List.flatMap, trC6, calculateOptimalTransfer,
    recommendedTransfer, maxTransferable, sourceExcess, destDeficit, targetUtil,
    min_def, max_def, pyRound]

theorem identifyEval_c9 : identifyTransferOpportunities rulesEx analysisC9 = [trC9] := by
  norm_num [identifyTransferOpportunities, analysisC9, rulesEx, stableSort, sortInsert,
    List.filter, List.filterMap, List.flatMap, trC9, calculateOptimalTransfer,
    recommendedTransfer, maxTransferable, sourceExcess, destDeficit, targetUtil,
    min_def, max_def, pyRound]

/-- C5: every emitted transfer recommendation carries a quantity at
least the configured minimum transfer size, a source different from the
destination, and a quantity not exceeding the destination's available
capacity (capacity minus inventory); stated for any destination entry of
the analysis carrying the recommendation's destination name, under the
integrality of the configured minimum and of the destination's recorded
capacity and inventory (they are stored as integers). -/
theorem c5_transfer_constraints (rules : BusinessRules)
    (analysis : List (String × CapEntry)) (tr : TransferRec) (d : String × CapEntry)
    (htr : tr ∈ identifyTransferOpportunities rules analysis)
    (hnd : (analysis.map Prod.fst).Nodup)
    (hd : d ∈ analysis) (hd1 : d.1 = tr.destination_warehouse)
    (hmin : ∃ k : ℤ, rules.minimum_transfer_size = (k : ℚ))
    (hcap : ∃ k : ℤ, d.2.max_capacity = (k : ℚ))
    (hinv : ∃ k : ℤ, d.2.current_inventory = (k : ℚ)) :
    rules.minimum_transfer_size ≤ (tr.recommended_transfer : ℚ) ∧
    tr.source_warehouse ≠ tr.destination_warehouse ∧
    (tr.recommended_transfer : ℚ) ≤ d.2.max_capacity - d.2.current_inventory := by
  obtain ⟨s, d', hs', hd', hne, heq, hpos⟩ := mem_identifyTransferOpportunities htr
  have hdw : tr.destination_warehouse = d'.1 := by rw [heq]; rfl
  have hdd : d = d' := eq_of_mem_of_fst_eq hnd hd hd' (by rw [hd1, hdw])
  subst hdd
  have hq : tr.recommended_transfer = pyRound (recommendedTransfer rules s.2 d.2) := by
    rw [heq]; rfl
  have hb := @recommendedTransfer_bounds rules s.2 d.2
    (by rw [← hq]; exact hpos)
  refine ⟨?_, ?_, ?_⟩
  · obtain ⟨k, hk⟩ := hmin
    have hk2 : k ≤ pyRound (recommendedTransfer rules s.2 d.2) := by
      have := pyRound_mono (hk ▸ hb.1)
      rwa [pyRound_intCast] at this
    rw [hq, hk]
    exact_mod_cast hk2
  · rw [heq]
    show s.1 ≠ d.1
    exact hne
  · obtain ⟨k1, hk1⟩ := hcap
    obtain ⟨k2, hk2⟩ := hinv
    have hble : recommendedTransfer rules s.2 d.2 ≤ ((k1 - k2 : ℤ) : ℚ) := by
      push_cast
      rw [← hk1, ← hk2]
      exact hb.2.2.1
    have hk3 : pyRound (recommendedTransfer rules s.2 d.2) ≤ k1 - k2 := by
      have := pyRound_mono hble
      rwa [pyRound_intCast] at this
    rw [hq, hk1, hk2]
    exact_mod_cast hk3

theorem c5_transfer_constraints_witness :
    rulesEx.minimum_transfer_size ≤ (trCons.recommended_transfer : ℚ) ∧
    trCons.source_warehouse ≠ trCons.destination_warehouse ∧
    (trCons.recommended_transfer : ℚ) ≤
      (⟨20, 40000, 200000, 0⟩ : CapEntry).max_capacity -
      (⟨20, 40000, 200000, 0⟩ : CapEntry).current_inventory :=
  c5_transfer_constraints rulesEx analysisCons trCons
    ("Nashville", ⟨20, 40000, 200000, 0⟩)
    (by rw [identifyEval_cons]; exact List.mem_singleton_self _)
    (by simp [analysisCons])
    (by simp [analysisCons])
    rfl
    ⟨10000, by norm_num [rulesEx]⟩
    ⟨200000, by norm_num⟩
    ⟨40000, by norm_num⟩

/-- C6 (counterexample): the optimizer emits a 28000-unit
Atlanta-to-Nashville transfer with recorded cost 2800 (quantity times
0.10 times distance factor 1.0); the claimed formula with the tiered
volume discount would give 2380 instead, so the emitted cost estimate
carries no volume discount. -/
theorem c6_counterexample :
    trC6 ∈ identifyTransferOpportunities rulesEx analysisC6 ∧
    trC6.recommended_transfer = 28000 ∧
    trC6.estimated_transfer_cost = 2800 ∧
    pyRound2 ((28000 : ℚ) * (1/10) * getDistanceFactor "Atlanta" "Nashville" *
      volumeDiscount 28000) = 2380 ∧
    (2800 : ℚ) ≠ 2380 := by
  refine ⟨by rw [identifyEval_c6]; exact List.mem_singleton_self _, ?_, ?_, ?_, by norm_num⟩
  · norm_num [trC6, calculateOptimalTransfer, recommendedTransfer, maxTransferable,
      sourceExcess, destDeficit, targetUtil, rulesEx, min_def, max_def, pyRound]
  · norm_num [trC6, calculateOptimalTransfer, recommendedTransfer, maxTransferable,
      sourceExcess, destDeficit, targetUtil, rulesEx, min_def, max_def, pyRound,
      pyRound2, getDistanceFactor, distanceFactors, List.lookup]
  · norm_num [pyRound2, pyRound, getDistanceFactor, distanceFactors, List.lookup,
      volumeDiscount]

/-- C6 (amended): every emitted transfer recommendation's cost estimate
equals quantity times the 0.10 base cost per unit times the pair's
distance factor, rounded to two decimals and computed on the exact
pre-rounding quantity; no volume discount enters (the 5000/10000 tiered
discount lives only in the inventory-allocation shipping estimator). -/
theorem c6_cost_formula (rules : BusinessRules)
    (analysis : List (String × CapEntry)) (tr : TransferRec) (s d : String × CapEntry)
    (htr : tr ∈ identifyTransferOpportunities rules analysis)
    (hnd : (analysis.map Prod.fst).Nodup)
    (hs : s ∈ analysis) (hs1 : s.1 = tr.source_warehouse)
    (hd : d ∈ analysis) (hd1 : d.1 = tr.destination_warehouse) :
    tr.estimated_transfer_cost =
      pyRound2 (recommendedTransfer rules s.2 d.2 * (1/10) * getDistanceFactor s.1 d.1) := by
  obtain ⟨s', d', hs', hd', hne, heq, hpos⟩ := mem_identifyTransferOpportunities htr
  have hsw : tr.source_warehouse = s'.1 := by rw [heq]; rfl
  have hdw : tr.destination_warehouse = d'.1 := by rw [heq]; rfl
  have hseq : s = s' := eq_of_mem_of_fst_eq hnd hs hs' (by rw [hs1, hsw])
  have hdeq : d = d' := eq_of_mem_of_fst_eq hnd hd hd' (by rw [hd1, hdw])
  subst hseq
  subst hdeq
  rw [heq]
  rfl

theorem c6_cost_formula_witness :
    trCons.estimated_transfer_cost =
      pyRound2 (recommendedTransfer rulesEx
        (⟨100, 200000, 200000, 0⟩ : CapEntry) (⟨20, 40000, 200000, 0⟩ : CapEntry) *
        (1/10) * getDistanceFactor "Atlanta" "Nashville") :=
  c6_cost_formula rulesEx analysisCons trCons
    ("Atlanta", ⟨100, 200000, 200000, 0⟩) ("Nashville", ⟨20, 40000, 200000, 0⟩)
    (by rw [identifyEval_cons]; exact List.mem_singleton_self _)
    (by simp [analysisCons])
    (by simp [analysisCons])
    rfl
    (by simp [analysisCons])
    rfl

/-- C9 (counterexample): on an analysis whose recorded source
final_utilization (90) disagrees with its inventory over capacity
(30000 of 200000), the optimizer emits a 14000-unit transfer whose
projected post-transfer source utilization is 8 percent, far below the
80 percent target, so an emitted transfer can push the source past the
target band. -/
theorem c9_counterexample :
    trC9 ∈ identifyTransferOpportunities rulesEx analysisC9 ∧
    trC9.proj_source_utilization = 8 ∧
    targetUtil rulesEx = 80 ∧
    ¬((80 : ℚ) ≤ 8) := by
  refine ⟨by rw [identifyEval_c9]; exact List.mem_singleton_self _, ?_,
    by norm_num [targetUtil, rulesEx], by norm_num⟩
  norm_num [trC9, calculateOptimalTransfer, newSourceUtil, recommendedTransfer,
    maxTransferable, sourceExcess, destDeficit, targetUtil, rulesEx,
    min_def, max_def, pyRound, pyRound1]

/-- C9 (amended): when each warehouse's recorded current_inventory over
max_capacity times 100 agrees with its recorded final_utilization (the
consistent case) and capacities are positive, every emitted transfer
keeps both sides inside the target band: the exact post-transfer source
utilization stays at or above the target and the exact post-transfer
destination utilization stays at or below it; the recommendation's
recorded projections are precisely those exact values rounded to one
decimal. -/
theorem c9_target_band (rules : BusinessRules)
    (analysis : List (String × CapEntry)) (tr : TransferRec) (s d : String × CapEntry)
    (htr : tr ∈ identifyTransferOpportunities rules analysis)
    (hnd : (analysis.map Prod.fst).Nodup)
    (hs : s ∈ analysis) (hs1 : s.1 = tr.source_warehouse)
    (hd : d ∈ analysis) (hd1 : d.1 = tr.destination_warehouse)
    (hscap : 0 < s.2.max_capacity) (hdcap : 0 < d.2.max_capacity)
    (hcons : s.2.current_inventory / s.2.max_capacity * 100 = s.2.final_utilization)
    (hcond : d.2.current_inventory / d.2.max_capacity * 100 = d.2.final_utilization) :
    targetUtil rules ≤ newSourceUtil rules s.2 d.2 ∧
    newDestUtil rules s.2 d.2 ≤ targetUtil rules ∧
    tr.proj_source_utilization = pyRound1 (newSourceUtil rules s.2 d.2) ∧
    tr.proj_dest_utilization = pyRound1 (newDestUtil rules s.2 d.2) := by
  obtain ⟨s', d', hs', hd', hne, heq, hpos⟩ := mem_identifyTransferOpportunities htr
  have hsw : tr.source_warehouse = s'.1 := by rw [heq]; rfl
  have hdw : tr.destination_warehouse = d'.1 := by rw [heq]; rfl
  have hseq : s = s' := eq_of_mem_of_fst_eq hnd hs hs' (by rw [hs1, hsw])
  have hdeq : d = d' := eq_of_mem_of_fst_eq hnd hd hd' (by rw [hd1, hdw])
  subst hseq
  subst hdeq
  have hq : tr.recommended_transfer = pyRound (recommendedTransfer rules s.2 d.2) := by
    rw [heq]; rfl
  have hb := @recommendedTransfer_bounds rules s.2 d.2
    (by rw [← hq]; exact hpos)
  have hsc : s.2.max_capacity ≠ 0 := ne_of_gt hscap
  have hdc : d.2.max_capacity ≠ 0 := ne_of_gt hdcap
  have hinvs : s.2.current_inventory * 100 =
      s.2.final_utilization * s.2.max_capacity := by
    field_simp at hcons
    linarith [hcons]
  have hinvd : d.2.current_inventory * 100 =
      d.2.final_utilization * d.2.max_capacity := by
    field_simp at hcond
    linarith [hcond]
  have hex : recommendedTransfer rules s.2 d.2 * 100 ≤
      (s.2.final_utilization - targetUtil rules) * s.2.max_capacity := by
    have h1 := hb.2.2.2.1
    rw [sourceExcess] at h1
    linarith [h1]
  have hde : recommendedTransfer rules s.2 d.2 * 100 ≤
      (targetUtil rules - d.2.final_utilization) * d.2.max_capacity := by
    have h1 := hb.2.2.2.2
    rw [destDeficit] at h1
    linarith [h1]
  refine ⟨?_, ?_, by rw [heq]; rfl, by rw [heq]; rfl⟩
  · rw [newSourceUtil, div_mul_eq_mul_div, le_div_iff₀ hscap]
    linarith [hinvs, hex]
  · rw [newDestUtil, div_mul_eq_mul_div, div_le_iff₀ hdcap]
    linarith [hinvd, hde]

theorem c9_target_band_witness :
    targetUtil rulesEx ≤ newSourceUtil rulesEx
      (⟨100, 200000, 200000, 0⟩ : CapEntry) (⟨20, 40000, 200000, 0⟩ : CapEntry) ∧
    newDestUtil rulesEx
      (⟨100, 200000, 200000, 0⟩ : CapEntry) (⟨20, 40000, 200000, 0⟩ : CapEntry) ≤
      targetUtil rulesEx ∧
    trCons.proj_source_utilization = pyRound1 (newSourceUtil rulesEx
      (⟨100, 200000, 200000, 0⟩ : CapEntry) (⟨20, 40000, 200000, 0⟩ : CapEntry)) ∧
    trCons.proj_dest_utilization = pyRound1 (newDestUtil rulesEx
      (⟨100, 200000, 200000, 0⟩ : CapEntry) (⟨20, 40000, 200000, 0⟩ : CapEntry)) :=
  c9_target_band rulesEx analysisCons trCons
    ("Atlanta", ⟨100, 200000, 200000, 0⟩) ("Nashville", ⟨20, 40000, 200000, 0⟩)
    (by rw [identifyEval_cons]; exact List.mem_singleton_self _)
    (by simp [analysisCons])
    (by simp [analysisCons])
    rfl
    (by simp [analysisCons])
    rfl
    (by norm_num)
    (by norm_num)
    (by norm_num)
    (by norm_num)

/-! Facts about the scenario impact summary. -/

theorem impactLoop_spec (scenarioUtil : String → ℚ) (baseUtil : List (String × ℚ))
    (acc : List (String × ℚ × ℚ × ℚ) × ℚ) :
    baseUtil.foldl (fun acc wb =>
      (acc.1 ++ [(wb.1, wb.2, scenarioUtil wb.1,
        pyRound1 (scenarioUtil wb.1 - wb.2))],
       acc.2 + |scenarioUtil wb.1 - wb.2|)) acc =
    (acc.1 ++ baseUtil.map (fun wb => (wb.1, wb.2, scenarioUtil wb.1,
        pyRound1 (scenarioUtil wb.1 - wb.2))),
     acc.2 + (baseUtil.map (fun wb => |scenarioUtil wb.1 - wb.2|)).sum) := by
  induction baseUtil generalizing acc with
  | nil => simp
  | cons b l ih =>
      rw [List.foldl_cons, ih]
      simp [List.append_assoc, add_assoc]

/-- C8 (counterexample): the impact summary cost figures are not deltas
against the baseline transfer set.  With an empty scenario transfer set
the reported transfer cost is 0, although the baseline analysis has a
transfer set of total cost 2800, so the scenario-minus-baseline delta
would be -2800. -/
theorem c8_counterexample :
    (calculateScenarioImpact [("Atlanta", (100 : ℚ)), ("Nashville", 20)]
      (fun _ => 0) []).transfer_costs = 0 ∧
    ((identifyTransferOpportunities rulesEx analysisCons).map
      (fun t => t.estimated_transfer_cost)).sum = 2800 ∧
    (0 : ℚ) ≠ 0 - 2800 := by
  refine ⟨rfl, ?_, by norm_num⟩
  rw [identifyEval_cons]
  norm_num [trCons, calculateOptimalTransfer, recommendedTransfer, maxTransferable,
    sourceExcess, destDeficit, targetUtil, rulesEx, min_def, max_def, pyRound,
    pyRound2, getDistanceFactor, distanceFactors, List.lookup]

/-- C8 (amended): the impact summary cost figures are the plain sums
over the scenario transfer set it receives (the baseline transfer set
is never consulted), while the per-warehouse utilization entries are
scenario-minus-baseline records (change rounded to one decimal) and the
aggregate equals the sum of the absolute per-warehouse utilization
changes. -/
theorem c8_impact_summary (baseUtil : List (String × ℚ))
    (scenarioUtil : String → ℚ) (transfers : List TransferRec) :
    (calculateScenarioImpact baseUtil scenarioUtil transfers).transfer_costs =
      (transfers.map (fun t => t.estimated_transfer_cost)).sum ∧
    (calculateScenarioImpact baseUtil scenarioUtil transfers).storage_savings =
      (transfers.map (fun t => t.estimated_storage_savings)).sum ∧
    (calculateScenarioImpact baseUtil scenarioUtil transfers).net_impact =
      (transfers.map (fun t => t.net_benefit)).sum ∧
    (calculateScenarioImpact baseUtil scenarioUtil transfers).utilization_changes =
      baseUtil.map (fun wb => (wb.1, wb.2, scenarioUtil wb.1,
        pyRound1 (scenarioUtil wb.1 - wb.2))) ∧
    (calculateScenarioImpact baseUtil scenarioUtil
        transfers).total_utilization_improvement =
      (baseUtil.map (fun wb => |scenarioUtil wb.1 - wb.2|)).sum := by
  refine ⟨rfl, rfl, rfl, ?_, ?_⟩
  · show (baseUtil.foldl _ ([], 0)).1 = _
    rw [impactLoop_spec]
    simp
  · show (baseUtil.foldl _ ([], 0)).2 = _
    rw [impactLoop_spec]
    simp

/-- C3: running `simulate_high_demand_scenario` mutates the baseline
analysis: the shallow `data.copy()` shares the nested dictionaries, so
the in-place scenario writes reach the baseline.  On a one-entry
Atlanta baseline with capacity 100000 and inventory 50000, the baseline
view dereferenced after the run reports inventory 85000 and final
utilization 85 instead of the original 50000 and 50. -/
theorem c3_baseline_mutation :
    (viewEntry heapEx entryExRef).whInfo.current_inventory = 50000 ∧
    (viewEntry heapEx entryExRef).utilM.final_utilization = 50 ∧
    (viewEntry (simulateHighDemandScenario heapEx baselineEx).1
      entryExRef).whInfo.current_inventory = 85000 ∧
    (viewEntry (simulateHighDemandScenario heapEx baselineEx).1
      entryExRef).utilM.final_utilization = 85 := by
  refine ⟨rfl, rfl, ?_, ?_⟩ <;>
    norm_num [viewEntry, getWhInfo, getUtilM, heapEx, baselineEx, entryExRef,
      simulateHighDemandScenario, simulateStep, setWhInfo, setUtilM, setTrend,
      List.foldl, List.getD, pyRound]

end WarehouseOpt
